import Mathlib

/-!
Verification of the ChuoCheck Session Verification Engine against its source.

The development shallowly embeds the parts of the repository that the
checked properties concern:

* the durable store for `session_check_responses` with its
  `UNIQUE(check_id, student_id)` constraint
  (supabase/migrations/20260120130000_add_presence_checks.sql);
* the student `LiveClass` client: `handleNewCheck`, the 1-second check
  countdown effect, and `confirmPresence` (src/unnamed/part_001);
* the lecturer `ActiveSession` client: the session countdown effect,
  `endSession`, `triggerPresenceCheck`, the presence-check countdown
  interval and the realtime insert handlers
  (src/src/components/DigitalIDCard.tsx).

Times are wall-clock milliseconds as integers (`Date.getTime()` values).
JavaScript `Math.max(0, Math.floor((end - now) / 1000))` is embedded as
`max 0 ((endT - now).fdiv 1000)`, `Math.floor` being floor division.
Distances and radii (floats from `calculateDistance`) are embedded as
rationals; the computed distance is an input parameter, the distance
computation itself (`@/lib/locationUtils`, not part of the sources)
being abstracted.  Asynchronous handlers are modelled as atomic steps.
-/

namespace ChuoCheck

/-- JavaScript Math.round: round half toward positive infinity. -/
def jsRound (q : ℚ) : ℤ := ⌊q + 1 / 2⌋

/-- LiveClass countdown value (src/unnamed/part_001 lines 139-141 and
149-151): `Math.max(0, Math.floor((end - now) / 1000))` against the
check's fixed `expires_at`. -/
def studentCheckRemaining (expiresAt now : ℤ) : ℤ :=
  max 0 ((expiresAt - now).fdiv 1000)

/-- ActiveSession session countdown value (DigitalIDCard.tsx lines
384-386): `Math.max(0, Math.floor((end - now) / 1000))` against the
session's fixed `end_time`. -/
def sessionCountdownRemaining (endTime now : ℤ) : ℤ :=
  max 0 ((endTime - now).fdiv 1000)

/-- ActiveSession presence-check countdown tick (DigitalIDCard.tsx lines
325-332): `setCheckTimeLeft(prev => prev <= 1 ? 0 : prev - 1)`. -/
def lecturerCheckTick (prev : ℤ) : ℤ :=
  if prev ≤ 1 then 0 else prev - 1

/-- Modelled from the spec (section 4.2): remaining seconds recomputed
each tick from the wall-clock delta to the fixed absolute expiry. -/
def wallClockRemaining (expiry now : ℤ) : ℤ :=
  max 0 ((expiry - now).fdiv 1000)

/-- Error raised by the durable store on a violated constraint. -/
inductive DbError
  | uniqueViolation
deriving DecidableEq

/-- One row of `session_check_responses` (migration lines 12-20). -/
structure CheckResponseRow where
  checkId : String
  studentId : String
  respondedAt : ℤ
deriving DecidableEq

/-- Key predicate of the `UNIQUE(check_id, student_id)` constraint. -/
def keyMatches (c s : String) (x : CheckResponseRow) : Bool :=
  x.checkId == c && x.studentId == s

/-- Number of rows of the table holding a given (check, student) key. -/
def countKey (table : List CheckResponseRow) (c s : String) : ℕ :=
  (table.filter (keyMatches c s)).length

/-- The uniqueness invariant of `session_check_responses`: at most one
row per (check, student). -/
def uniquePerKey (table : List CheckResponseRow) : Prop :=
  ∀ c s, countKey table c s ≤ 1

/-- Durable write into `session_check_responses`.  The store enforces
`UNIQUE(check_id, student_id)` at the point of insert: a row whose key
is already present is rejected with a conflict, anything else is
appended.  (Migration lines 12-20; the client performs no pre-check.) -/
def insertCheckResponse (table : List CheckResponseRow) (r : CheckResponseRow) :
    Except DbError (List CheckResponseRow) :=
  if table.any (keyMatches r.checkId r.studentId) then
    .error .uniqueViolation
  else
    .ok (table ++ [r])

/-- The store serializes concurrent submissions: apply them in arrival
order, counting accepted writes and conflicts. -/
def submitAll (table : List CheckResponseRow) :
    List CheckResponseRow → List CheckResponseRow × ℕ × ℕ
  | [] => (table, 0, 0)
  | r :: rs =>
    match insertCheckResponse table r with
    | .ok t2 =>
      let rest := submitAll t2 rs
      (rest.1, rest.2.1 + 1, rest.2.2)
    | .error _ =>
      let rest := submitAll table rs
      (rest.1, rest.2.1, rest.2.2 + 1)

/-- The `checkStatus` state of the student LiveClass client
(src/unnamed/part_001 line 37). -/
inductive CheckStatus
  | idle
  | prompt
  | verifying
  | verified
deriving DecidableEq

/-- The `activeCheck` record held by the student client
(src/unnamed/part_001 lines 23-26). -/
structure ActiveCheck where
  id : String
  expiresAt : ℤ
deriving DecidableEq

/-- Local state of the student LiveClass client. -/
structure StudentClient where
  activeCheck : Option ActiveCheck
  checkStatus : CheckStatus
  timeLeft : ℤ
deriving DecidableEq

/-- The geofence-relevant columns of the session row as fetched by the
student client (src/unnamed/part_001 lines 11-21 and 175). -/
structure SessionGeo where
  locationRequired : Bool
  classroomLatitude : Option ℚ
  classroomLongitude : Option ℚ
  geofenceRadiusMeters : Option ℚ
deriving DecidableEq

/-- JavaScript truthiness of a nullable numeric column: `null` and `0`
are falsy. -/
def truthyCoord : Option ℚ → Bool
  | none => false
  | some x => decide (x ≠ 0)

/-- The guard `session.location_required && session.classroom_latitude
&& session.classroom_longitude` of confirmPresence
(src/unnamed/part_001 line 175). -/
def requiresGeofence (s : SessionGeo) : Bool :=
  s.locationRequired && truthyCoord s.classroomLatitude &&
    truthyCoord s.classroomLongitude

/-- JavaScript `radius || 150`: the fallback applies when the column is
null and also when it is 0, both being falsy. -/
def recheckThreshold (s : SessionGeo) : ℚ :=
  match s.geofenceRadiusMeters with
  | none => 150
  | some r => if r = 0 then 150 else r

/-- Outcome of the location re-validation inside confirmPresence. -/
inductive ConfirmLocationResult
  | pass
  | outOfRange (reportedMeters : ℤ)
deriving DecidableEq

/-- The re-validation of confirmPresence (src/unnamed/part_001 lines
180-188): `if (distance > (session.geofence_radius_meters || 150))
throw new Error(... Math.round(distance) ...)`. -/
def confirmLocationCheck (s : SessionGeo) (distance : ℚ) : ConfirmLocationResult :=
  if distance > recheckThreshold s then .outOfRange (jsRound distance)
  else .pass

/-- The insert step of confirmPresence (src/unnamed/part_001 lines
200-218): on a store error the catch block returns the client to
`prompt`; on success the client shows `verified`. -/
def recordResponse (st : StudentClient) (check : ActiveCheck) (studentId : String)
    (now : ℤ) (table : List CheckResponseRow) :
    StudentClient × List CheckResponseRow :=
  match insertCheckResponse table ⟨check.id, studentId, now⟩ with
  | .ok t2 => ({ st with checkStatus := .verified }, t2)
  | .error _ => ({ st with checkStatus := .prompt }, table)

/-- confirmPresence (src/unnamed/part_001 lines 169-229), atomically:
no-op without an active check; with geofencing required, a distance
beyond `recheckThreshold` returns the client to `prompt` without
touching the store; otherwise the response row is written (the store
may still reject it as a duplicate).  The successful location fetch is
abstracted into the `distance` argument. -/
def confirmPresence (st : StudentClient) (sess : SessionGeo) (studentId : String)
    (distance : ℚ) (now : ℤ) (table : List CheckResponseRow) :
    StudentClient × List CheckResponseRow :=
  match st.activeCheck with
  | none => (st, table)
  | some check =>
    if requiresGeofence sess = true then
      match confirmLocationCheck sess distance with
      | .outOfRange _ => ({ st with checkStatus := .prompt }, table)
      | .pass => recordResponse st check studentId now table
  else recordResponse st check studentId now table

/-- handleNewCheck (src/unnamed/part_001 lines 129-142): store the
check, enter `prompt`, seed the countdown from the wall clock. -/
def handleNewCheck (checkData : ActiveCheck) (now : ℤ) : StudentClient :=
  { activeCheck := some checkData
    checkStatus := .prompt
    timeLeft := studentCheckRemaining checkData.expiresAt now }

/-- One firing of the student countdown interval (src/unnamed/part_001
lines 145-167).  The effect is registered only while
`checkStatus = prompt` with an active check; at `remaining <= 0` the
prompt is dismissed (`idle`, check cleared). -/
def studentTick (now : ℤ) (st : StudentClient) : StudentClient :=
  match st.activeCheck with
  | none => st
  | some check =>
    if st.checkStatus = .prompt then
      let remaining := studentCheckRemaining check.expiresAt now
      if remaining ≤ 0 then
        { activeCheck := none, checkStatus := .idle, timeLeft := remaining }
      else { st with timeLeft := remaining }
    else st

/-- Fold a list of tick instants through the student countdown. -/
def runStudentTicks (st : StudentClient) (ts : List ℤ) : StudentClient :=
  ts.foldl (fun a t => studentTick t a) st

/-- The instants `s + 1000, ..., s + 1000 * k` at which `setInterval`
fires after the prompt opens at `s`. -/
def tickTimes (s : ℤ) (k : ℕ) : List ℤ :=
  (List.range k).map (fun i : ℕ => s + 1000 * ((i : ℤ) + 1))

/-- Local state of the lecturer ActiveSession clock: whether the
component is still mounted, the `session.is_active` flag as fetched
(never updated locally), and the fixed `end_time`. -/
structure LecturerClock where
  mounted : Bool
  sessionActive : Bool
  endTime : ℤ
deriving DecidableEq

/-- One firing of the session countdown interval (DigitalIDCard.tsx
lines 383-393): recompute the remaining time and, at zero with the
fetched `is_active` still true, call `endSession`, whose successful
navigation unmounts the component and clears the interval.  The second
component counts the `endSession` signals of this tick. -/
def sessionTick (st : LecturerClock) (now : ℤ) : LecturerClock × ℕ :=
  if st.mounted = true then
    if sessionCountdownRemaining st.endTime now = 0 ∧ st.sessionActive = true then
      ({ st with mounted := false }, 1)
    else (st, 0)
  else (st, 0)

/-- Fold a list of tick instants through the session clock, summing the
`endSession` signals. -/
def runSessionTicks (st : LecturerClock) : List ℤ → LecturerClock × ℕ
  | [] => (st, 0)
  | t :: rest =>
    let s1 := sessionTick st t
    let s2 := runSessionTicks s1.1 rest
    (s2.1, s1.2 + s2.2)

/-- The session row as far as `endSession` writes it
(DigitalIDCard.tsx lines 476-479). -/
structure SessionRow where
  isActive : Bool
  endTime : ℤ
deriving DecidableEq

/-- The durable effect of endSession (DigitalIDCard.tsx lines 472-481):
`update(\x7b is_active: false \x7d)` on the session row; the store
reports no error on a row that is already inactive. -/
def endSessionUpdate (s : SessionRow) : Except DbError SessionRow :=
  .ok { s with isActive := false }

/-- One realtime `attendance_records` insert event as folded by the
lecturer feed (DigitalIDCard.tsx lines 270-293). -/
structure AttendanceEventRow where
  id : String
  scannedAt : ℤ
  studentId : String
deriving DecidableEq

/-- The attendance insert handler (DigitalIDCard.tsx line 286):
`setAttendees(prev => [newAttendee, ...prev])` — an unconditional
prepend. -/
def attendanceInsertHandler (e : AttendanceEventRow) (prev : List AttendanceEventRow) :
    List AttendanceEventRow :=
  e :: prev

/-- One realtime `session_check_responses` insert event. -/
structure CheckResponseEvent where
  checkId : String
  studentId : String
deriving DecidableEq

/-- The check-response insert handler behind the subscription filtered
by `check_id=eq.(activeCheckId)` (DigitalIDCard.tsx lines 307-321):
events of the subscribed check increment the counter unconditionally,
events of any other check never reach the handler. -/
def responseInsertFold (cid : String) (count : ℕ) (e : CheckResponseEvent) : ℕ :=
  if e.checkId = cid then count + 1 else count

/-- Tally after folding a stream of response events. -/
def tallyAfter (cid : String) (start : ℕ) (evs : List CheckResponseEvent) : ℕ :=
  evs.foldl (responseInsertFold cid) start

/-- Presence-check panel state of the lecturer client
(DigitalIDCard.tsx lines 190-192). -/
structure LecturerCheckPanel where
  activeCheckId : Option String
  checkTimeLeft : ℤ
  verifiedCount : ℕ
deriving DecidableEq

/-- triggerPresenceCheck (DigitalIDCard.tsx lines 341-378): insert the
new check row, then `setActiveCheckId(data.id)`, `setCheckTimeLeft(60)`,
`setVerifiedCount(0)` — whatever panel state was there before. -/
def triggerPresenceCheck (newId : String) (_p : LecturerCheckPanel) :
    LecturerCheckPanel :=
  { activeCheckId := some newId, checkTimeLeft := 60, verifiedCount := 0 }

/-- A student client showing the presence prompt for check `c`. -/
def promptSt (c : ActiveCheck) (tl : ℤ) : StudentClient :=
  { activeCheck := some c, checkStatus := .prompt, timeLeft := tl }

theorem keyMatches_eq_true_iff (c s : String) (x : CheckResponseRow) :
    keyMatches c s x = true ↔ x.checkId = c ∧ x.studentId = s := by
  simp [keyMatches]

theorem countKey_append_single (t : List CheckResponseRow) (r : CheckResponseRow)
    (c s : String) :
    countKey (t ++ [r]) c s =
      countKey t c s + (if keyMatches c s r then 1 else 0) := by
  by_cases h : keyMatches c s r <;>
    simp [countKey, List.filter_append, List.filter_cons, h]

theorem any_keyMatches_iff (t : List CheckResponseRow) (c s : String) :
    t.any (keyMatches c s) = true ↔ 0 < countKey t c s := by
  rw [List.any_eq_true]
  unfold countKey
  rw [List.length_pos_iff_exists_mem]
  constructor
  · rintro ⟨x, hx, hk⟩
    exact ⟨x, List.mem_filter.mpr ⟨hx, hk⟩⟩
  · rintro ⟨x, hx⟩
    have hx2 := List.mem_filter.mp hx
    exact ⟨x, hx2.1, hx2.2⟩

theorem insertCheckResponse_ok (t : List CheckResponseRow) (r : CheckResponseRow)
    (h : countKey t r.checkId r.studentId = 0) :
    insertCheckResponse t r = .ok (t ++ [r]) := by
  unfold insertCheckResponse
  rw [if_neg]
  intro hc
  rw [any_keyMatches_iff] at hc
  omega

theorem insertCheckResponse_error (t : List CheckResponseRow) (r : CheckResponseRow)
    (h : 0 < countKey t r.checkId r.studentId) :
    insertCheckResponse t r = .error .uniqueViolation := by
  unfold insertCheckResponse
  rw [if_pos ((any_keyMatches_iff t r.checkId r.studentId).mpr h)]

theorem uniquePerKey_append (t : List CheckResponseRow) (r : CheckResponseRow)
    (hu : uniquePerKey t) (h : countKey t r.checkId r.studentId = 0) :
    uniquePerKey (t ++ [r]) := by
  intro c s
  rw [countKey_append_single]
  by_cases hk : keyMatches c s r = true
  · obtain ⟨h1, h2⟩ := (keyMatches_eq_true_iff c s r).mp hk
    subst h1
    subst h2
    simp [hk, h]
  · simp [hk]
    exact hu c s

theorem countKey_append_self (t : List CheckResponseRow) (r : CheckResponseRow) :
    countKey (t ++ [r]) r.checkId r.studentId =
      countKey t r.checkId r.studentId + 1 := by
  rw [countKey_append_single]
  simp [keyMatches]

theorem submitAll_all_conflict (rs : List CheckResponseRow)
    (t : List CheckResponseRow) (c s : String)
    (hall : ∀ r ∈ rs, r.checkId = c ∧ r.studentId = s)
    (h : 0 < countKey t c s) :
    submitAll t rs = (t, 0, rs.length) := by
  induction rs with
  | nil => rfl
  | cons r rs ih =>
    have hr := hall r (List.mem_cons_self r rs)
    have herr : insertCheckResponse t r = .error .uniqueViolation := by
      apply insertCheckResponse_error
      rw [hr.1, hr.2]
      exact h
    have ihr := ih (fun x hx => hall x (List.mem_cons_of_mem r hx))
    simp only [submitAll, herr, ihr, List.length_cons]

/-- C1: at most one `SessionCheckResponse` exists per (check, student);
under concurrent duplicate submissions, serialized at the store, the
`UNIQUE(check_id, student_id)` constraint accepts exactly the first
write and rejects every other one with a conflict; and the rejection of
a duplicate happens at the durable write — `confirmPresence` runs no
client-side duplicate pre-check, the insert is attempted and the store
conflict sends the client back to `prompt`. -/
theorem unique_response_per_check_student :
    (∀ (table rs : List CheckResponseRow) (c s : String),
      uniquePerKey table → rs ≠ [] →
      (∀ r ∈ rs, r.checkId = c ∧ r.studentId = s) →
      countKey table c s = 0 →
      uniquePerKey (submitAll table rs).1 ∧
        countKey (submitAll table rs).1 c s = 1 ∧
        (submitAll table rs).2.1 = 1 ∧
        (submitAll table rs).2.2 = rs.length - 1) ∧
    (∀ (st : StudentClient) (sess : SessionGeo) (sid : String) (d : ℚ) (now : ℤ)
      (table : List CheckResponseRow) (c0 : ActiveCheck),
      st.activeCheck = some c0 → requiresGeofence sess = false →
      0 < countKey table c0.id sid →
      confirmPresence st sess sid d now table =
        ({ st with checkStatus := .prompt }, table)) := by
  constructor
  · intro table rs c s hu hne hall hk
    match rs with
    | [] => exact absurd rfl hne
    | r :: rs =>
      have hr := hall r (List.mem_cons_self r rs)
      have hok : insertCheckResponse table r = .ok (table ++ [r]) := by
        apply insertCheckResponse_ok
        rw [hr.1, hr.2]
        exact hk
      have hone : 0 < countKey (table ++ [r]) c s := by
        have := countKey_append_self table r
        rw [hr.1, hr.2] at this
        omega
      have hrest := submitAll_all_conflict rs (table ++ [r]) c s
        (fun x hx => hall x (List.mem_cons_of_mem r hx)) hone
      have hstep : submitAll table (r :: rs) = (table ++ [r], 1, rs.length) := by
        simp only [submitAll, hok, hrest]
      rw [hstep]
      refine ⟨?_, ?_, rfl, rfl⟩
      · apply uniquePerKey_append table r hu
        rw [hr.1, hr.2]
        exact hk
      · show countKey (table ++ [r]) c s = 1
        have := countKey_append_self table r
        rw [hr.1, hr.2] at this
        omega
  · intro st sess sid d now table c0 hst hg hk
    have herr := insertCheckResponse_error table ⟨c0.id, sid, now⟩ hk
    unfold confirmPresence recordResponse
    rw [hst]
    simp only [hg, Bool.false_eq_true, if_false, herr, hst]

/-- Witness for C1: a store already holding the key ("chk","stu")
rejects both of two further duplicate submissions; and a client confirm
against a duplicate key is sent back to `prompt` by the store itself. -/
theorem unique_response_per_check_student_witness :
    (uniquePerKey (submitAll [] [⟨"chk", "stu", 10⟩, ⟨"chk", "stu", 11⟩]).1 ∧
      countKey (submitAll [] [⟨"chk", "stu", 10⟩, ⟨"chk", "stu", 11⟩]).1 "chk" "stu" = 1 ∧
      (submitAll [] [⟨"chk", "stu", 10⟩, ⟨"chk", "stu", 11⟩]).2.1 = 1 ∧
      (submitAll [] [⟨"chk", "stu", 10⟩, ⟨"chk", "stu", 11⟩]).2.2 = 1) ∧
    confirmPresence (promptSt ⟨"chk", 60000⟩ 30) ⟨false, none, none, none⟩ "stu"
        0 500 [⟨"chk", "stu", 10⟩] =
      ({ promptSt ⟨"chk", 60000⟩ 30 with checkStatus := .prompt },
        [⟨"chk", "stu", 10⟩]) := by
  constructor
  · have h1 := unique_response_per_check_student.1 []
      [⟨"chk", "stu", 10⟩, ⟨"chk", "stu", 11⟩] "chk" "stu"
      (by intro c s; simp [countKey]) (by simp)
      (by intro r hr; simp at hr; rcases hr with h | h <;> simp [h])
      (by simp [countKey])
    simpa using h1
  · exact unique_response_per_check_student.2 (promptSt ⟨"chk", 60000⟩ 30)
      ⟨false, none, none, none⟩ "stu" 0 500 [⟨"chk", "stu", 10⟩] ⟨"chk", 60000⟩
      rfl rfl (by simp [countKey, keyMatches])

theorem fdiv_thousand_nonpos_iff (x : ℤ) : x.fdiv 1000 ≤ 0 ↔ x < 1000 := by
  rw [Int.fdiv_eq_ediv _ (by norm_num)]
  omega

theorem countdown_eq_zero_iff (e t : ℤ) :
    max 0 ((e - t).fdiv 1000) = 0 ↔ e - t < 1000 := by
  rw [max_eq_left_iff, fdiv_thousand_nonpos_iff]

theorem studentCheckRemaining_eq_zero_iff (e t : ℤ) :
    studentCheckRemaining e t = 0 ↔ e - t < 1000 :=
  countdown_eq_zero_iff e t

theorem sessionCountdownRemaining_eq_zero_iff (e t : ℤ) :
    sessionCountdownRemaining e t = 0 ↔ e - t < 1000 :=
  countdown_eq_zero_iff e t

theorem studentCheckRemaining_nonneg (e t : ℤ) : 0 ≤ studentCheckRemaining e t :=
  le_max_left 0 _

theorem studentCheckRemaining_nonpos_iff (e t : ℤ) :
    studentCheckRemaining e t ≤ 0 ↔ e - t < 1000 := by
  constructor
  · intro h
    exact (studentCheckRemaining_eq_zero_iff e t).mp
      (le_antisymm h (studentCheckRemaining_nonneg e t))
  · intro h
    rw [(studentCheckRemaining_eq_zero_iff e t).mpr h]

theorem studentTick_no_active (t : ℤ) (st : StudentClient)
    (h : st.activeCheck = none) : studentTick t st = st := by
  unfold studentTick
  rw [h]

theorem runStudentTicks_no_active (ts : List ℤ) (st : StudentClient)
    (h : st.activeCheck = none) : runStudentTicks st ts = st := by
  induction ts with
  | nil => rfl
  | cons t ts ih =>
    show runStudentTicks (studentTick t st) ts = st
    rw [studentTick_no_active t st h]
    exact ih

theorem studentTick_prompt_clear (t : ℤ) (c : ActiveCheck) (tl : ℤ)
    (h : c.expiresAt - t < 1000) :
    studentTick t (promptSt c tl) =
      { activeCheck := none, checkStatus := .idle, timeLeft := 0 } := by
  unfold studentTick promptSt
  have hz := (studentCheckRemaining_eq_zero_iff c.expiresAt t).mpr h
  simp [hz]

theorem studentTick_prompt_keep (t : ℤ) (c : ActiveCheck) (tl : ℤ)
    (h : ¬ c.expiresAt - t < 1000) :
    studentTick t (promptSt c tl) =
      promptSt c (studentCheckRemaining c.expiresAt t) := by
  unfold studentTick promptSt
  have hz : ¬ studentCheckRemaining c.expiresAt t ≤ 0 := fun hc =>
    h ((studentCheckRemaining_nonpos_iff c.expiresAt t).mp hc)
  simp [hz]

theorem runStudentTicks_clears (ts : List ℤ) (c : ActiveCheck) (tl : ℤ)
    (h : ∃ t ∈ ts, c.expiresAt - 1000 < t) :
    (runStudentTicks (promptSt c tl) ts).activeCheck = none := by
  induction ts generalizing tl with
  | nil => simp at h
  | cons t ts ih =>
    show (runStudentTicks (studentTick t (promptSt c tl)) ts).activeCheck = none
    by_cases hc : c.expiresAt - t < 1000
    · rw [studentTick_prompt_clear t c tl hc,
        runStudentTicks_no_active ts _ rfl]
    · rw [studentTick_prompt_keep t c tl hc]
      apply ih
      obtain ⟨x, hx, hpx⟩ := h
      rcases List.mem_cons.mp hx with hx | hx
      · subst hx
        omega
      · exact ⟨x, hx, hpx⟩

theorem tickTimes_succ (s : ℤ) (k : ℕ) :
    tickTimes s (k + 1) = tickTimes s k ++ [s + 1000 * ((k : ℤ) + 1)] := by
  unfold tickTimes
  rw [List.range_succ, List.map_append]
  simp

theorem mem_tickTimes_last (s : ℤ) (k : ℕ) (hk : 1 ≤ k) :
    (s + 1000 * (k : ℤ)) ∈ tickTimes s k := by
  obtain ⟨m, rfl⟩ : ∃ m, k = m + 1 := ⟨k - 1, by omega⟩
  rw [tickTimes_succ]
  apply List.mem_append_right
  simp

theorem confirmPresence_no_active (st : StudentClient) (sess : SessionGeo)
    (sid : String) (d : ℚ) (now : ℤ) (table : List CheckResponseRow)
    (h : st.activeCheck = none) :
    confirmPresence st sess sid d now table = (st, table) := by
  unfold confirmPresence
  rw [h]

theorem recheckThreshold_configured (sess : SessionGeo) (r : ℚ)
    (hr : sess.geofenceRadiusMeters = some r) (hr0 : r ≠ 0) :
    recheckThreshold sess = r := by
  unfold recheckThreshold
  rw [hr]
  exact if_neg hr0

theorem confirmPresence_geofail (st : StudentClient) (sess : SessionGeo)
    (sid : String) (d : ℚ) (now : ℤ) (table : List CheckResponseRow)
    (c : ActiveCheck) (hst : st.activeCheck = some c)
    (hg : requiresGeofence sess = true) (hd : recheckThreshold sess < d) :
    confirmPresence st sess sid d now table =
      ({ st with checkStatus := .prompt }, table) := by
  unfold confirmPresence confirmLocationCheck
  rw [hst]
  simp only [hg, if_pos, if_true]
  rw [if_pos hd]

theorem confirmPresence_geopass_insert (st : StudentClient) (sess : SessionGeo)
    (sid : String) (d : ℚ) (now : ℤ) (table : List CheckResponseRow)
    (c : ActiveCheck) (hst : st.activeCheck = some c)
    (hg : requiresGeofence sess = true) (hd : d ≤ recheckThreshold sess)
    (hk : countKey table c.id sid = 0) :
    confirmPresence st sess sid d now table =
      ({ st with checkStatus := .verified }, table ++ [⟨c.id, sid, now⟩]) := by
  have hok : insertCheckResponse table ⟨c.id, sid, now⟩ =
      .ok (table ++ [⟨c.id, sid, now⟩]) := insertCheckResponse_ok _ _ hk
  unfold confirmPresence confirmLocationCheck recordResponse
  rw [hst]
  simp only [hg, if_true, if_neg (not_lt.mpr hd), hok]

/-- C3: once the student countdown has ticked across the check's expiry
(the interval fires each second while the prompt is open, and the
clamped remaining time hits zero no later than the expiry itself), the
prompt is dismissed and a subsequent `confirmPresence` writes nothing:
the response table — hence the lecturer tally — is unchanged.  A
confirm issued before expiry, while the prompt is open, with a location
inside the re-check radius and no prior response, is accepted and the
response row is recorded. -/
theorem late_response_rejected_timely_accepted :
    (∀ (c : ActiveCheck) (s : ℤ) (k : ℕ) (sess : SessionGeo) (sid : String)
       (d : ℚ) (now : ℤ) (table : List CheckResponseRow),
       1 ≤ k → c.expiresAt ≤ s + 1000 * (k : ℤ) →
       confirmPresence (runStudentTicks (handleNewCheck c s) (tickTimes s k))
           sess sid d now table
         = (runStudentTicks (handleNewCheck c s) (tickTimes s k), table)) ∧
    (∀ (c : ActiveCheck) (tl : ℤ) (sess : SessionGeo) (sid : String) (d : ℚ)
       (now : ℤ) (table : List CheckResponseRow),
       now < c.expiresAt → requiresGeofence sess = true →
       d ≤ recheckThreshold sess → countKey table c.id sid = 0 →
       confirmPresence (promptSt c tl) sess sid d now table
         = (⟨some c, .verified, tl⟩, table ++ [⟨c.id, sid, now⟩])) := by
  constructor
  · intro c s k sess sid d now table hk hexp
    have hmem : (s + 1000 * (k : ℤ)) ∈ tickTimes s k := mem_tickTimes_last s k hk
    have hclear : (runStudentTicks (handleNewCheck c s) (tickTimes s k)).activeCheck
        = none := by
      show (runStudentTicks (promptSt c (studentCheckRemaining c.expiresAt s))
        (tickTimes s k)).activeCheck = none
      have hlt : c.expiresAt - 1000 < s + 1000 * (k : ℤ) := by omega
      exact runStudentTicks_clears (tickTimes s k) c _
        ⟨s + 1000 * (k : ℤ), hmem, hlt⟩
    exact confirmPresence_no_active _ sess sid d now table hclear
  · intro c tl sess sid d now table _hnow hg hd hk
    exact confirmPresence_geopass_insert (promptSt c tl) sess sid d now table c
      rfl hg hd hk

/-- Witness for C3: a check expiring at 2000 ms, prompted at 0, ticked
at 1000 and 2000 ms, rejects a confirm at 2500 ms and leaves the store
empty; a fresh prompt for a check expiring at 60000 ms accepts a
confirm at 1000 ms from 50 m inside a 100 m radius. -/
theorem late_response_rejected_timely_accepted_witness :
    confirmPresence (runStudentTicks (handleNewCheck ⟨"chk", 2000⟩ 0) (tickTimes 0 2))
        ⟨true, some 1, some 1, some 100⟩ "stu" 50 2500 []
      = (runStudentTicks (handleNewCheck ⟨"chk", 2000⟩ 0) (tickTimes 0 2), []) ∧
    confirmPresence (promptSt ⟨"chk2", 60000⟩ 60) ⟨true, some 1, some 1, some 100⟩
        "stu" 50 1000 []
      = (⟨some ⟨"chk2", 60000⟩, .verified, 60⟩, [⟨"chk2", "stu", 1000⟩]) := by
  constructor
  · exact late_response_rejected_timely_accepted.1 ⟨"chk", 2000⟩ 0 2
      ⟨true, some 1, some 1, some 100⟩ "stu" 50 2500 [] (by norm_num) (by norm_num)
  · exact late_response_rejected_timely_accepted.2 ⟨"chk2", 60000⟩ 60
      ⟨true, some 1, some 1, some 100⟩ "stu" 50 1000 [] (by norm_num)
      (by decide)
      (by rw [recheckThreshold_configured _ 100 rfl (by norm_num)]; norm_num)
      (by simp [countKey])

/-- C2 counterexample: with geofencing enabled and a configured radius
of 0 m, a presence claim computed 10 m away has d > r, yet it is not
rejected: the JavaScript fallback `geofence_radius_meters || 150`
treats the configured 0 as unset, compares against 150 m, and passes
the claim, recording the response. -/
theorem geofence_zero_radius_accepted_cex :
    requiresGeofence ⟨true, some 1, some 1, some 0⟩ = true ∧
      (0 : ℚ) < 10 ∧
      confirmLocationCheck ⟨true, some 1, some 1, some 0⟩ 10 =
        ConfirmLocationResult.pass ∧
      confirmPresence (promptSt ⟨"chk", 60000⟩ 60) ⟨true, some 1, some 1, some 0⟩
          "stu" 10 1000 [] =
        ({ promptSt ⟨"chk", 60000⟩ 60 with checkStatus := .verified },
          [⟨"chk", "stu", 1000⟩]) := by
  refine ⟨by decide, by norm_num, ?_, ?_⟩
  · unfold confirmLocationCheck recheckThreshold
    norm_num
  · apply confirmPresence_geopass_insert _ _ _ _ _ _ ⟨"chk", 60000⟩ rfl (by decide)
    · unfold recheckThreshold
      norm_num
    · simp [countKey]

/-- C2 amended: for every session with geofencing enabled and a nonzero
configured radius r, a presence claim at computed distance d is
rejected with OutOfRange carrying the (rounded) computed distance when
d > r, and is accepted — the response row recorded — when d ≤ r, the
boundary d = r included.  (For a configured radius of 0 the code falls
back to a fixed 150 m threshold, see the counterexample.) -/
theorem geofence_recheck_boundary (sess : SessionGeo) (r d : ℚ)
    (st : StudentClient) (sid : String) (now : ℤ)
    (table : List CheckResponseRow) (c : ActiveCheck)
    (hr : sess.geofenceRadiusMeters = some r) (hr0 : r ≠ 0)
    (hst : st.activeCheck = some c) (hg : requiresGeofence sess = true)
    (hk : countKey table c.id sid = 0) :
    (r < d →
      confirmLocationCheck sess d = .outOfRange (jsRound d) ∧
      confirmPresence st sess sid d now table =
        ({ st with checkStatus := .prompt }, table)) ∧
    (d ≤ r →
      confirmLocationCheck sess d = .pass ∧
      confirmPresence st sess sid d now table =
        ({ st with checkStatus := .verified }, table ++ [⟨c.id, sid, now⟩])) := by
  have hth := recheckThreshold_configured sess r hr hr0
  constructor
  · intro hd
    have hd2 : recheckThreshold sess < d := by
      rw [hth]
      exact hd
    constructor
    · unfold confirmLocationCheck
      rw [if_pos hd2]
    · exact confirmPresence_geofail st sess sid d now table c hst hg hd2
  · intro hd
    have hd2 : d ≤ recheckThreshold sess := by
      rw [hth]
      exact hd
    constructor
    · unfold confirmLocationCheck
      rw [if_neg (not_lt.mpr hd2)]
    · exact confirmPresence_geopass_insert st sess sid d now table c hst hg hd2 hk

/-- Witness for the amended C2 at radius 100 m: 150 m is rejected with
the rounded distance, and the boundary distance of exactly 100 m is
accepted and recorded. -/
theorem geofence_recheck_boundary_witness :
    (confirmLocationCheck ⟨true, some 1, some 1, some 100⟩ 150 =
        ConfirmLocationResult.outOfRange 150 ∧
      confirmPresence (promptSt ⟨"chk", 60000⟩ 60) ⟨true, some 1, some 1, some 100⟩
          "stu" 150 1000 [] =
        ({ promptSt ⟨"chk", 60000⟩ 60 with checkStatus := .prompt }, [])) ∧
    (confirmLocationCheck ⟨true, some 1, some 1, some 100⟩ 100 =
        ConfirmLocationResult.pass ∧
      confirmPresence (promptSt ⟨"chk", 60000⟩ 60) ⟨true, some 1, some 1, some 100⟩
          "stu" 100 1000 [] =
        ({ promptSt ⟨"chk", 60000⟩ 60 with checkStatus := .verified },
          [⟨"chk", "stu", 1000⟩])) := by
  constructor
  · have h := (geofence_recheck_boundary ⟨true, some 1, some 1, some 100⟩ 100 150
      (promptSt ⟨"chk", 60000⟩ 60) "stu" 1000 [] ⟨"chk", 60000⟩ rfl (by norm_num)
      rfl (by decide) (by simp [countKey])).1 (by norm_num)
    have hround : jsRound (150 : ℚ) = 150 := by
      unfold jsRound
      rw [Int.floor_eq_iff]
      norm_num
    rw [hround] at h
    simpa using h
  · have h := (geofence_recheck_boundary ⟨true, some 1, some 1, some 100⟩ 100 100
      (promptSt ⟨"chk", 60000⟩ 60) "stu" 1000 [] ⟨"chk", 60000⟩ rfl (by norm_num)
      rfl (by decide) (by simp [countKey])).2 le_rfl
    simpa using h

/-- C4 counterexample: the re-validation threshold for a session with a
configured 100 m radius is 100 m itself, not 100 m + 50%: a claim
computed 120 m away — inside the claimed widened tolerance of 150 m —
is rejected and no `SessionCheckResponse` is recorded. -/
theorem recheck_has_no_margin_cex :
    recheckThreshold ⟨true, some 1, some 1, some 100⟩ = 100 ∧
      recheckThreshold ⟨true, some 1, some 1, some 100⟩ ≠ 100 + 100 / 2 ∧
      (120 : ℚ) ≤ 100 + 100 / 2 ∧
      confirmLocationCheck ⟨true, some 1, some 1, some 100⟩ 120 =
        ConfirmLocationResult.outOfRange 120 ∧
      confirmPresence (promptSt ⟨"chk", 60000⟩ 60) ⟨true, some 1, some 1, some 100⟩
          "stu" 120 1000 [] =
        ({ promptSt ⟨"chk", 60000⟩ 60 with checkStatus := .prompt }, []) := by
  refine ⟨by norm_num [recheckThreshold], by norm_num [recheckThreshold],
    by norm_num, ?_, ?_⟩
  · have hround : jsRound (120 : ℚ) = 120 := by
      unfold jsRound
      rw [Int.floor_eq_iff]
      norm_num
    unfold confirmLocationCheck
    rw [if_pos (by norm_num [recheckThreshold])]
    rw [hround]
  · apply confirmPresence_geofail _ _ _ _ _ _ ⟨"chk", 60000⟩ rfl (by decide)
    norm_num [recheckThreshold]

/-- C4 amended: when the session requires geofencing, `confirmPresence`
re-validates the claimed location against the session's configured
radius itself — no widened margin — whenever a nonzero radius is
configured; the wider fixed 150 m threshold applies only when the
radius column is null or 0.  A distance beyond the threshold leaves the
client in `prompt` and records no `SessionCheckResponse`, so the check
does run before recording. -/
theorem recheck_threshold_is_configured_radius :
    (∀ (s : SessionGeo) (r : ℚ), s.geofenceRadiusMeters = some r → r ≠ 0 →
        recheckThreshold s = r) ∧
    (∀ s : SessionGeo,
        s.geofenceRadiusMeters = none ∨ s.geofenceRadiusMeters = some 0 →
        recheckThreshold s = 150) ∧
    (∀ (st : StudentClient) (sess : SessionGeo) (sid : String) (d : ℚ) (now : ℤ)
        (table : List CheckResponseRow) (c : ActiveCheck),
        st.activeCheck = some c → requiresGeofence sess = true →
        recheckThreshold sess < d →
        confirmPresence st sess sid d now table =
          ({ st with checkStatus := CheckStatus.prompt }, table)) := by
  refine ⟨recheckThreshold_configured, ?_, ?_⟩
  · intro s h
    unfold recheckThreshold
    rcases h with h | h
    · rw [h]
    · rw [h]
      norm_num
  · intro st sess sid d now table c hst hg hd
    exact confirmPresence_geofail st sess sid d now table c hst hg hd

/-- Witness for the amended C4: radius 100 gives threshold 100, a null
radius gives 150, and a 120 m claim against radius 100 stays at
`prompt` with the store untouched. -/
theorem recheck_threshold_is_configured_radius_witness :
    recheckThreshold ⟨true, some 1, some 1, some 100⟩ = 100 ∧
      recheckThreshold ⟨true, some 1, some 1, none⟩ = 150 ∧
      confirmPresence (promptSt ⟨"chk", 60000⟩ 60) ⟨true, some 1, some 1, some 100⟩
          "stu" 120 1000 [] =
        ({ promptSt ⟨"chk", 60000⟩ 60 with checkStatus := CheckStatus.prompt }, []) :=
  ⟨recheck_threshold_is_configured_radius.1 ⟨true, some 1, some 1, some 100⟩ 100
      rfl (by norm_num),
   recheck_threshold_is_configured_radius.2.1 ⟨true, some 1, some 1, none⟩ (Or.inl rfl),
   recheck_threshold_is_configured_radius.2.2 (promptSt ⟨"chk", 60000⟩ 60)
      ⟨true, some 1, some 1, some 100⟩ "stu" 120 1000 [] ⟨"chk", 60000⟩ rfl
      (by decide) (by norm_num [recheckThreshold])⟩

/-- C5 counterexample: the lecturer-side check clock is not recomputed
from the wall clock.  A check triggered at t = 0 ms expires at
60000 ms; after a 10-second suspension the first tick fires at
10000 ms: the wall-clock recomputation yields 50 s, but the code's
`setCheckTimeLeft(prev => prev - 1)` yields 59 s. -/
theorem lecturer_check_clock_decrements_cex :
    lecturerCheckTick 60 = 59 ∧ wallClockRemaining 60000 10000 = 50 ∧
      lecturerCheckTick 60 ≠ wallClockRemaining 60000 10000 := by
  decide

theorem lecturerCheckTick_iterate :
    ∀ j : ℕ, j ≤ 60 → lecturerCheckTick^[j] 60 = 60 - (j : ℤ) := by
  intro j
  induction j with
  | zero => intro _; simp
  | succ n ih =>
    intro h
    rw [Function.iterate_succ_apply', ih (by omega)]
    unfold lecturerCheckTick
    split_ifs with hcase <;> push_cast <;> omega

/-- C5 amended: the session clock and the student-side check clock
recompute the remaining seconds at each tick from the wall-clock delta
to the fixed expiry, but the lecturer-side check clock decrements a
stored counter: after j ticks it shows 60 − j whatever the wall clock
says. -/
theorem countdowns_wall_clock_except_lecturer_check (e t : ℤ) (j : ℕ)
    (hj : j ≤ 60) :
    sessionCountdownRemaining e t = wallClockRemaining e t ∧
      studentCheckRemaining e t = wallClockRemaining e t ∧
      lecturerCheckTick^[j] 60 = 60 - (j : ℤ) :=
  ⟨rfl, rfl, lecturerCheckTick_iterate j hj⟩

/-- Witness for the amended C5 after 5 ticks with a 50-second gap. -/
theorem countdowns_wall_clock_except_lecturer_check_witness :
    sessionCountdownRemaining 60000 10000 = wallClockRemaining 60000 10000 ∧
      studentCheckRemaining 60000 10000 = wallClockRemaining 60000 10000 ∧
      lecturerCheckTick^[5] 60 = 55 :=
  countdowns_wall_clock_except_lecturer_check 60000 10000 5 (by decide)

theorem runSessionTicks_unmounted (ts : List ℤ) (st : LecturerClock)
    (h : st.mounted = false) : runSessionTicks st ts = (st, 0) := by
  induction ts with
  | nil => rfl
  | cons t ts ih =>
    have hstep : sessionTick st t = (st, 0) := by
      unfold sessionTick
      simp [h]
    show (let s1 := sessionTick st t
      let s2 := runSessionTicks s1.1 ts
      (s2.1, s1.2 + s2.2)) = (st, 0)
    rw [hstep]
    simp [ih]

/-- C6: while the session is Active, once the session countdown's
remaining time reaches zero the clock calls `endSession` exactly once:
the successful call navigates away, unmounting the component and
clearing the interval, so no subsequent tick fires it again. -/
theorem session_end_signalled_exactly_once (st : LecturerClock) (ts : List ℤ)
    (hm : st.mounted = true) (ha : st.sessionActive = true) :
    (runSessionTicks st ts).2 ≤ 1 ∧
      ((∃ t ∈ ts, sessionCountdownRemaining st.endTime t = 0) →
        (runSessionTicks st ts).2 = 1) := by
  induction ts with
  | nil => exact ⟨by simp [runSessionTicks], by simp [runSessionTicks]⟩
  | cons t ts ih =>
    by_cases hz : sessionCountdownRemaining st.endTime t = 0
    · have hstep : sessionTick st t = ({ st with mounted := false }, 1) := by
        unfold sessionTick
        simp [hm, hz, ha]
      have hrest := runSessionTicks_unmounted ts { st with mounted := false } rfl
      have hrun : runSessionTicks st (t :: ts) = ({ st with mounted := false }, 1) := by
        show (let s1 := sessionTick st t
          let s2 := runSessionTicks s1.1 ts
          (s2.1, s1.2 + s2.2)) = ({ st with mounted := false }, 1)
        rw [hstep]
        simp [hrest]
      rw [hrun]
      exact ⟨le_rfl, fun _ => rfl⟩
    · have hstep : sessionTick st t = (st, 0) := by
        unfold sessionTick
        simp [hm, hz]
      have hrun : runSessionTicks st (t :: ts) = runSessionTicks st ts := by
        show (let s1 := sessionTick st t
          let s2 := runSessionTicks s1.1 ts
          (s2.1, s1.2 + s2.2)) = runSessionTicks st ts
        rw [hstep]
        simp
      rw [hrun]
      refine ⟨ih.1, fun hex => ?_⟩
      apply ih.2
      obtain ⟨x, hx, hpx⟩ := hex
      rcases List.mem_cons.mp hx with hx | hx
      · subst hx
        exact absurd hpx hz
      · exact ⟨x, hx, hpx⟩

/-- Witness for C6: an active, mounted clock with end time 60000 ms,
ticked at 30000, 60000 and 61000 ms, signals endSession exactly once. -/
theorem session_end_signalled_exactly_once_witness :
    (runSessionTicks ⟨true, true, 60000⟩ [30000, 60000, 61000]).2 ≤ 1 ∧
      (runSessionTicks ⟨true, true, 60000⟩ [30000, 60000, 61000]).2 = 1 :=
  ⟨(session_end_signalled_exactly_once ⟨true, true, 60000⟩ [30000, 60000, 61000]
      rfl rfl).1,
   (session_end_signalled_exactly_once ⟨true, true, 60000⟩ [30000, 60000, 61000]
      rfl rfl).2 ⟨60000, by decide, by decide⟩⟩

/-- C7: ending a session is idempotent at the durable store: on a
session already Ended (`is_active = false`), `endSession`'s update
writes the same row back, changing nothing and raising no error; and
any successful end leaves a row on which a further end is a no-op. -/
theorem end_session_idempotent :
    (∀ s : SessionRow, s.isActive = false → endSessionUpdate s = Except.ok s) ∧
      (∀ s t : SessionRow, endSessionUpdate s = Except.ok t →
        endSessionUpdate t = Except.ok t) := by
  constructor
  · intro s h
    cases s with
    | mk a e =>
      cases h
      rfl
  · intro s t h
    cases s with
    | mk a e =>
      cases t with
      | mk b f =>
        unfold endSessionUpdate at *
        simp at h
        simp [h.1, h.2]

/-- Witness for C7: ending the already-ended session row twice. -/
theorem end_session_idempotent_witness :
    endSessionUpdate ⟨false, 60000⟩ = Except.ok ⟨false, 60000⟩ :=
  end_session_idempotent.1 ⟨false, 60000⟩ rfl

/-- C8 counterexample: the realtime merge is not idempotent under
duplicate delivery.  Folding the same attendance insert event twice
prepends it twice, and folding the same check-response event twice
increments the tally twice. -/
theorem realtime_merge_not_idempotent_cex :
    attendanceInsertHandler ⟨"rec1", 5, "stu1"⟩
        (attendanceInsertHandler ⟨"rec1", 5, "stu1"⟩ []) ≠
      attendanceInsertHandler ⟨"rec1", 5, "stu1"⟩ [] ∧
      responseInsertFold "chk1" (responseInsertFold "chk1" 0 ⟨"chk1", "stu1"⟩)
          ⟨"chk1", "stu1"⟩ ≠
        responseInsertFold "chk1" 0 ⟨"chk1", "stu1"⟩ := by
  constructor
  · decide
  · decide

/-- C8 amended: the insert handlers key the merge by nothing: folding
the same insert event twice prepends a second copy of the record to the
attendance feed and increments the check-response tally twice, so
duplicate delivery double-counts instead of being absorbed. -/
theorem realtime_merge_double_counts (e : AttendanceEventRow)
    (prev : List AttendanceEventRow) (cid : String) (ev : CheckResponseEvent)
    (n : ℕ) (h : ev.checkId = cid) :
    attendanceInsertHandler e (attendanceInsertHandler e prev) = e :: e :: prev ∧
      (attendanceInsertHandler e (attendanceInsertHandler e prev)).length =
        prev.length + 2 ∧
      responseInsertFold cid (responseInsertFold cid n ev) ev = n + 2 := by
  refine ⟨rfl, by simp [attendanceInsertHandler], ?_⟩
  simp [responseInsertFold, h]

/-- Witness for the amended C8 on a concrete duplicated event. -/
theorem realtime_merge_double_counts_witness :
    attendanceInsertHandler ⟨"rec1", 5, "stu1"⟩
        (attendanceInsertHandler ⟨"rec1", 5, "stu1"⟩ []) =
      [⟨"rec1", 5, "stu1"⟩, ⟨"rec1", 5, "stu1"⟩] ∧
      (attendanceInsertHandler ⟨"rec1", 5, "stu1"⟩
        (attendanceInsertHandler ⟨"rec1", 5, "stu1"⟩ [])).length = 2 ∧
      responseInsertFold "chk1" (responseInsertFold "chk1" 0 ⟨"chk1", "stu1"⟩)
        ⟨"chk1", "stu1"⟩ = 2 :=
  realtime_merge_double_counts ⟨"rec1", 5, "stu1"⟩ [] "chk1" ⟨"chk1", "stu1"⟩ 0 rfl

theorem tallyAfter_eq_count (cid : String) (evs : List CheckResponseEvent) :
    ∀ n : ℕ, tallyAfter cid n evs =
      n + (evs.filter (fun e => e.checkId == cid)).length := by
  induction evs with
  | nil => intro n; simp [tallyAfter]
  | cons e evs ih =>
    intro n
    show tallyAfter cid (responseInsertFold cid n e) evs = _
    by_cases h : e.checkId = cid
    · have hf : responseInsertFold cid n e = n + 1 := by
        simp [responseInsertFold, h]
      rw [hf, ih]
      simp [List.filter_cons, h]
      omega
    · have hf : responseInsertFold cid n e = n := by
        simp [responseInsertFold, h]
      rw [hf, ih]
      simp [List.filter_cons, h]

/-- C9: `triggerPresenceCheck` resets the live verified counter to
exactly zero, and the subscription being filtered to the new check's
identity, the tally after any stream of response events equals the
number of events for that check: events of earlier checks never
contribute. -/
theorem check_tally_counts_only_current_check (newId : String)
    (p : LecturerCheckPanel) (evs : List CheckResponseEvent) :
    (triggerPresenceCheck newId p).verifiedCount = 0 ∧
      (triggerPresenceCheck newId p).activeCheckId = some newId ∧
      tallyAfter newId (triggerPresenceCheck newId p).verifiedCount evs =
        (evs.filter (fun e => e.checkId == newId)).length ∧
      (∀ e : CheckResponseEvent, e.checkId ≠ newId →
        ∀ n : ℕ, responseInsertFold newId n e = n) := by
  refine ⟨rfl, rfl, ?_, ?_⟩
  · rw [tallyAfter_eq_count]
    simp [triggerPresenceCheck]
  · intro e h n
    simp [responseInsertFold, h]

/-- Witness for C9: after triggering check "new", one response to "new"
and one to the earlier check "old" tally to exactly 1. -/
theorem check_tally_counts_only_current_check_witness :
    (triggerPresenceCheck "new" ⟨some "old", 10, 7⟩).verifiedCount = 0 ∧
      (triggerPresenceCheck "new" ⟨some "old", 10, 7⟩).activeCheckId = some "new" ∧
      tallyAfter "new" (triggerPresenceCheck "new" ⟨some "old", 10, 7⟩).verifiedCount
          [⟨"old", "stuA"⟩, ⟨"new", "stuB"⟩] =
        ([⟨"old", "stuA"⟩, ⟨"new", "stuB"⟩].filter
          (fun e : CheckResponseEvent => e.checkId == "new")).length ∧
      responseInsertFold "new" 3 ⟨"old", "stuA"⟩ = 3 := by
  have h := check_tally_counts_only_current_check "new" ⟨some "old", 10, 7⟩
    [⟨"old", "stuA"⟩, ⟨"new", "stuB"⟩]
  exact ⟨h.1, h.2.1, h.2.2.1, h.2.2.2 ⟨"old", "stuA"⟩ (by decide) 3⟩

/-- C10: Every displayed countdown value is non-negative: both the
student check countdown and the lecturer session countdown clamp the
computed remaining seconds at zero, and for any `now` at or after the
expiry timestamp the value is exactly 0, never negative. -/
theorem displayed_countdowns_nonneg_and_zero_after_expiry (e n : ℤ) :
    (0 ≤ studentCheckRemaining e n ∧ 0 ≤ sessionCountdownRemaining e n) ∧
      (e ≤ n → studentCheckRemaining e n = 0 ∧ sessionCountdownRemaining e n = 0) := by
  refine ⟨⟨le_max_left 0 _, le_max_left 0 _⟩, fun h => ?_⟩
  constructor
  · exact (studentCheckRemaining_eq_zero_iff e n).mpr (by omega)
  · exact (sessionCountdownRemaining_eq_zero_iff e n).mpr (by omega)

/-- Witness for C10 at a concrete clock-skew instant: expiry 5000 ms,
now 7000 ms. -/
theorem displayed_countdowns_nonneg_and_zero_after_expiry_witness :
    (0 ≤ studentCheckRemaining 5000 7000 ∧ 0 ≤ sessionCountdownRemaining 5000 7000) ∧
      (studentCheckRemaining 5000 7000 = 0 ∧ sessionCountdownRemaining 5000 7000 = 0) :=
  ⟨(displayed_countdowns_nonneg_and_zero_after_expiry 5000 7000).1,
   (displayed_countdowns_nonneg_and_zero_after_expiry 5000 7000).2 (by decide)⟩

end ChuoCheck
